import Mathlib

/-!
Verification of the now-playing notifier core (src/main.rs).

The development shallowly embeds the change-detection and notification-dispatch
core of the program: the SessionInfo data model with its thumbnail-insensitive
equality, the Update pass of command_run_notifer, the event loop over the
Update / ConfigChanged / Quit events, the tray-menu command handler (wndproc),
the per-session metadata retry loop of get_session_infos, and the JSON config
persistence round trip.  External effects (toast child processes, config file
writes, metadata reads) are passed in as explicit function parameters so the
control flow of the source can be reproduced exactly.
-/

namespace NowPlaying

/-- Thumbnail data (struct Thumbnail in main.rs): a mime type and raw bytes,
modelled with bytes as a list of naturals. -/
structure Thumbnail where
  mime_type : String
  bytes : List Nat
deriving DecidableEq

/-- Toast payload (struct Toast in main.rs).  The duration is in nanoseconds,
mirroring Duration::new(3, 0). -/
structure Toast where
  duration : Nat
  source_app_user_mode_id : String
  line_1 : String
  line_2 : String
  line_3 : String
  thumbnail : Option Thumbnail
deriving DecidableEq

/-- Snapshot of one media session (struct SessionInfo in main.rs). -/
structure SessionInfo where
  source_app_user_mode_id : String
  title : String
  subtitle : String
  artist : String
  album_title : String
  thumbnail : Option Thumbnail
deriving DecidableEq

/-- The custom PartialEq of SessionInfo in main.rs: compares source id, title,
subtitle, artist and album title; the thumbnail field is not compared. -/
def SessionInfo.eq (a b : SessionInfo) : Bool :=
  a.source_app_user_mode_id == b.source_app_user_mode_id
    && a.title == b.title
    && a.subtitle == b.subtitle
    && a.artist == b.artist
    && a.album_title == b.album_title

/-- Spec-side identity relation, written from the specification words: all of
source id, title, subtitle, artist and album equal, thumbnail excluded.  It is
kept separate from SessionInfo.eq (which is translated from the source) so the
two can be compared in the change-detection claim. -/
def specSameIdentity (a b : SessionInfo) : Prop :=
  a.source_app_user_mode_id = b.source_app_user_mode_id
    ∧ a.title = b.title
    ∧ a.subtitle = b.subtitle
    ∧ a.artist = b.artist
    ∧ a.album_title = b.album_title

/-- Change detection as performed by the Update arm of command_run_notifer:
a snapshot of the current list is new exactly when prev_session_infos.contains
is false for it, where contains uses the custom PartialEq above. -/
def detect_new (current previous : List SessionInfo) : List SessionInfo :=
  current.filter fun s => !(previous.any fun p => SessionInfo.eq p s)

/-- Toast construction from a snapshot, exactly as in the Update arm of
command_run_notifer: three-second duration, line 1 is the title or
title en-dash subtitle, line 2 the album title, line 3 the artist. -/
def mkToast (s : SessionInfo) : Toast :=
  { duration := 3000000000
    source_app_user_mode_id := s.source_app_user_mode_id
    line_1 := if s.subtitle.isEmpty then s.title else s.title ++ " – " ++ s.subtitle
    line_2 := s.album_title
    line_3 := s.artist
    thumbnail := s.thumbnail }

/-- Registry lookup, as sources.iter().find on the first component. -/
def findSource (sources : List (String × Bool)) (id : String) : Option (String × Bool) :=
  sources.find? fun p => p.1 == id

/-- Outcome of one Update pass body: final registry contents, toasts whose
dispatch succeeded, number of ConfigChanged events sent during the pass, and
whether the pass ran to completion (false when a send_toast error propagated
out through the question-mark operator). -/
structure PassAcc where
  sources : List (String × Bool)
  sentToasts : List Toast
  configChangedCount : Nat
  ok : Bool
deriving DecidableEq

/-- Body of the for-loop over session_infos in the Update arm of
command_run_notifer.  The parameter f models send_toast: true means the toast
child process ran successfully, false means send_toast returned an error, in
which case the question-mark operator aborts the whole pass.  Snapshots found
in prev_session_infos are skipped; unknown sources are registered enabled and a
ConfigChanged event is sent; disabled sources are skipped; otherwise the toast
is built and dispatched. -/
def updatePassGo (f : Toast → Bool) (prev : List SessionInfo) :
    List SessionInfo → List (String × Bool) → List Toast → Nat → PassAcc
  | [], sources, toasts, n => ⟨sources, toasts, n, true⟩
  | s :: rest, sources, toasts, n =>
    if prev.any (fun p => SessionInfo.eq p s) then
      updatePassGo f prev rest sources toasts n
    else
      match findSource sources s.source_app_user_mode_id with
      | none =>
        if f (mkToast s) then
          updatePassGo f prev rest (sources ++ [(s.source_app_user_mode_id, true)])
            (toasts ++ [mkToast s]) (n + 1)
        else
          ⟨sources ++ [(s.source_app_user_mode_id, true)], toasts, n + 1, false⟩
      | some p =>
        if p.2 then
          if f (mkToast s) then
            updatePassGo f prev rest sources (toasts ++ [mkToast s]) n
          else
            ⟨sources, toasts, n, false⟩
        else
          updatePassGo f prev rest sources toasts n

/-- Result of a whole Update pass, including the prev_session_infos value after
the pass: the assignment prev_session_infos = session_infos at the end of the
Update arm only executes when no error aborted the pass. -/
structure UpdatePassResult where
  ok : Bool
  sources : List (String × Bool)
  sentToasts : List Toast
  configChangedCount : Nat
  prev : List SessionInfo
deriving DecidableEq

/-- One Update pass of command_run_notifer over the freshly enumerated list
cur, starting from registry sources and memory prev. -/
def runUpdatePass (f : Toast → Bool) (sources : List (String × Bool))
    (prev cur : List SessionInfo) : UpdatePassResult :=
  let acc := updatePassGo f prev cur sources [] 0
  ⟨acc.ok, acc.sources, acc.sentToasts, acc.configChangedCount,
    if acc.ok then cur else prev⟩

/-- Event kinds of the loop (enum Event in main.rs).  An Update event carries
the snapshot list that get_session_infos returns at that moment, since the
enumeration result is external input to the loop. -/
inductive Event where
  | update (session_infos : List SessionInfo)
  | configChanged
  | quit
deriving DecidableEq

/-- Trace of a run of the event loop: whether it ended without error, the final
registry, prev_session_infos, all successfully dispatched toasts, the number of
successful config writes, and the queued events left unprocessed when the loop
stopped early (on an error or on Quit). -/
structure LoopTrace where
  ok : Bool
  sources : List (String × Bool)
  prev : List SessionInfo
  sent : List Toast
  writes : Nat
  remaining : List Event
deriving DecidableEq

/-- The event loop of command_run_notifer over a queue of events.  The
parameter w models the ConfigChanged arm's config write (create_dir_all plus
fs::write): false means the write failed, and the question-mark operator then
returns the error from command_run_notifer, ending the loop.  A failed Update
pass likewise ends the loop with the send_toast error.  Quit breaks out
normally. -/
def runLoop (f : Toast → Bool) (w : List (String × Bool) → Bool) :
    List Event → List (String × Bool) → List SessionInfo → List Toast → Nat → LoopTrace
  | [], sources, prev, sent, writes => ⟨true, sources, prev, sent, writes, []⟩
  | Event.update cur :: rest, sources, prev, sent, writes =>
    let r := runUpdatePass f sources prev cur
    if r.ok then
      runLoop f w rest r.sources r.prev (sent ++ r.sentToasts) writes
    else
      ⟨false, r.sources, prev, sent ++ r.sentToasts, writes, rest⟩
  | Event.configChanged :: rest, sources, prev, sent, writes =>
    if w sources then
      runLoop f w rest sources prev sent (writes + 1)
    else
      ⟨false, sources, prev, sent, writes, rest⟩
  | Event.quit :: rest, sources, prev, sent, writes =>
    ⟨true, sources, prev, sent, writes, rest⟩

/-- Tray commands dispatched through WM_COMMAND in wndproc. -/
inductive TrayCommand where
  | exitCommand
  | clearKnown
  | toggleSource (i : Nat)

/-- WM_COMMAND handling in wndproc: Exit posts quit and sends Event::Quit;
Clear known empties the sources vector and sends Event::ConfigChanged; a
source item toggles the enabled flag at its index when the index is in range
(sources.get_mut) and sends Event::ConfigChanged unconditionally. -/
def wndproc_command (sources : List (String × Bool)) :
    TrayCommand → List (String × Bool) × List Event
  | TrayCommand.exitCommand => (sources, [Event.quit])
  | TrayCommand.clearKnown => ([], [Event.configChanged])
  | TrayCommand.toggleSource i =>
    (match sources.get? i with
      | some p => sources.set i (p.1, !p.2)
      | none => sources,
     [Event.configChanged])

/-- The bounded retry loop of get_session_infos: for _ in 0..20, attempt
get_session_info; on success push and break, on failure sleep 50 ms and try
again.  The session parameter gives the outcome of each attempt by attempt
index; the second component of the result accumulates the nanoseconds slept in
the failure branches. -/
def retryLoop (session : Nat → Option SessionInfo) :
    Nat → Nat → Nat → Option SessionInfo × Nat
  | 0, _, slept => (none, slept)
  | n + 1, i, slept =>
    match session i with
    | some info => (some info, slept)
    | none => retryLoop session n (i + 1) (slept + 50000000)

/-- Result of the 20-attempt retry loop for one session. -/
def get_session_info_with_retry (session : Nat → Option SessionInfo) :
    Option SessionInfo × Nat :=
  retryLoop session 20 0 0

/-- Enumeration pass of get_session_infos: each session contributes its
snapshot when some attempt within the retry budget succeeded, and is silently
omitted otherwise; the pass itself always succeeds. -/
def get_session_infos (sessions : List (Nat → Option SessionInfo)) :
    List SessionInfo :=
  sessions.filterMap fun session => (get_session_info_with_retry session).1

/-- JSON values, as far as the persisted config shape needs them. -/
inductive Json where
  | str (s : String)
  | bool (b : Bool)
  | arr (items : List Json)
  | obj (fields : List (String × Json))

/-- Persisted configuration (struct Config in main.rs). -/
structure Config where
  sources : List (String × Bool)
deriving DecidableEq

/-- Serde serialization of one (String, bool) tuple: a two-element JSON
array. -/
def encodePair (p : String × Bool) : Json :=
  Json.arr [Json.str p.1, Json.bool p.2]

/-- Serde serialization of Config: an object with the single field sources
holding the array of encoded pairs, which is the shape serde_json writes for
the derived Serialize instance. -/
def encodeConfig (c : Config) : Json :=
  Json.obj [("sources", Json.arr (c.sources.map encodePair))]

/-- Serde deserialization of one (String, bool) tuple. -/
def decodePair : Json → Option (String × Bool)
  | Json.arr [Json.str s, Json.bool b] => some (s, b)
  | _ => none

/-- Deserialization of the sources array, element by element, failing when any
element fails. -/
def decodeSources : List Json → Option (List (String × Bool))
  | [] => some []
  | j :: rest =>
    match decodePair j, decodeSources rest with
    | some p, some ps => some (p :: ps)
    | _, _ => none

/-- Serde deserialization of Config from a JSON value of the persisted
shape. -/
def decodeConfig : Json → Option Config
  | Json.obj [("sources", Json.arr items)] => (decodeSources items).map Config.mk
  | _ => none

/-- Outcome of reading the config file at startup: the file may be missing,
may fail to parse as JSON, or may parse to a JSON value. -/
inductive FileRead where
  | missing
  | unparsable
  | parsed (j : Json)

/-- Startup config loading in main: if reading and parsing both succeed the
parsed config is used, otherwise the empty registry. -/
def loadConfig : FileRead → Config
  | FileRead.missing => ⟨[]⟩
  | FileRead.unparsable => ⟨[]⟩
  | FileRead.parsed j => (decodeConfig j).getD ⟨[]⟩

/-- Sample snapshot used by concrete witnesses. -/
def sample1 : SessionInfo :=
  ⟨"a.one", "Song A", "", "Artist A", "Album A", none⟩

/-- Second sample snapshot used by concrete witnesses. -/
def sample2 : SessionInfo :=
  ⟨"a.two", "Song B", "Live", "Artist B", "Album B", none⟩

/-- The boolean snapshot equality of the source agrees with the spec-side
identity relation. -/
theorem SessionInfo.eq_iff (a b : SessionInfo) :
    SessionInfo.eq a b = true ↔ specSameIdentity a b := by
  simp [SessionInfo.eq, specSameIdentity, Bool.and_eq_true, beq_iff_eq, and_assoc]

/-- Snapshot equality is reflexive. -/
theorem SessionInfo.eq_refl (a : SessionInfo) : SessionInfo.eq a a = true := by
  simp [SessionInfo.eq]

/-- Change detection of a list against itself is empty. -/
theorem detect_new_self (l : List SessionInfo) : detect_new l l = [] := by
  rw [detect_new, List.filter_eq_nil_iff]
  intro s hs
  simp [List.any_eq_true]
  exact ⟨s, hs, SessionInfo.eq_refl s⟩

/-- C7: the toast payload is a deterministic function of the snapshot: line 1
is the title when the subtitle is empty and otherwise the title and subtitle
joined with an exact en-dash separator, line 2 is the album, line 3 is the
artist. -/
theorem claim_C7 (s : SessionInfo) :
    (mkToast s).line_1 =
        (if s.subtitle = "" then s.title else s.title ++ " – " ++ s.subtitle)
      ∧ (mkToast s).line_2 = s.album_title
      ∧ (mkToast s).line_3 = s.artist := by
  refine ⟨?_, rfl, rfl⟩
  simp only [mkToast]
  by_cases h : s.subtitle = ""
  · rw [if_pos ((String.isEmpty_iff s.subtitle).mpr h), if_pos h]
  · rw [if_neg (fun hc => h ((String.isEmpty_iff s.subtitle).mp hc)), if_neg h]

/-- Round trip of the sources array through serde encoding and decoding. -/
theorem decodeSources_encode (l : List (String × Bool)) :
    decodeSources (l.map encodePair) = some l := by
  induction l with
  | nil => rfl
  | cons p rest ih => simp [decodeSources, decodePair, encodePair, ih]

/-- C9: persisting the registry as the JSON object with a sources array of
string-bool pairs and loading it back reproduces exactly the same ordered
list, in particular for the registry of app.a enabled and app.b disabled; a
missing or unparsable config file loads as the empty registry. -/
theorem claim_C9 :
    (∀ c : Config, decodeConfig (encodeConfig c) = some c)
      ∧ loadConfig (FileRead.parsed (encodeConfig ⟨[("app.a", true), ("app.b", false)]⟩))
          = ⟨[("app.a", true), ("app.b", false)]⟩
      ∧ loadConfig FileRead.missing = ⟨[]⟩
      ∧ loadConfig FileRead.unparsable = ⟨[]⟩ := by
  have hrt : ∀ c : Config, decodeConfig (encodeConfig c) = some c := by
    intro c
    simp [encodeConfig, decodeConfig, decodeSources_encode]
  refine ⟨hrt, ?_, rfl, rfl⟩
  simp [loadConfig, hrt]

/-- C10: a ToggleSource command whose index is outside the registry leaves the
registry unchanged yet still sends ConfigChanged, and processing that event
performs a config write even though nothing changed. -/
theorem claim_C10 (sources : List (String × Bool)) (i : Nat)
    (hi : sources.length ≤ i) :
    (wndproc_command sources (TrayCommand.toggleSource i)).1 = sources
      ∧ (wndproc_command sources (TrayCommand.toggleSource i)).2 = [Event.configChanged]
      ∧ ∀ (f : Toast → Bool) (w : List (String × Bool) → Bool)
          (prev : List SessionInfo) (sent : List Toast) (n : Nat),
          w sources = true →
          runLoop f w (wndproc_command sources (TrayCommand.toggleSource i)).2
              sources prev sent n
            = ⟨true, sources, prev, sent, n + 1, []⟩ := by
  have hget : sources[i]? = none := List.getElem?_eq_none hi
  refine ⟨?_, ?_, ?_⟩
  · simp [wndproc_command, hget]
  · simp [wndproc_command]
  · intro f w prev sent n hw
    simp [wndproc_command, runLoop, hw]

/-- C10 witness: toggling index 1 of a one-entry registry. -/
theorem claim_C10_witness :
    (wndproc_command [("a.one", true)] (TrayCommand.toggleSource 1)).1 = [("a.one", true)]
      ∧ (wndproc_command [("a.one", true)] (TrayCommand.toggleSource 1)).2
          = [Event.configChanged]
      ∧ ∀ (f : Toast → Bool) (w : List (String × Bool) → Bool)
          (prev : List SessionInfo) (sent : List Toast) (n : Nat),
          w [("a.one", true)] = true →
          runLoop f w (wndproc_command [("a.one", true)] (TrayCommand.toggleSource 1)).2
              [("a.one", true)] prev sent n
            = ⟨true, [("a.one", true)], prev, sent, n + 1, []⟩ :=
  claim_C10 [("a.one", true)] 1 (by decide)

/-- Registry lookup ignores entries appended to the right once a match
exists. -/
theorem findSource_append_left (l l2 : List (String × Bool)) (id : String)
    (p : String × Bool) (h : findSource l id = some p) :
    findSource (l ++ l2) id = some p := by
  simp only [findSource] at h ⊢
  rw [List.find?_append, h]
  rfl

/-- Registry lookup stays empty when the appended entry has a different
source id. -/
theorem findSource_append_none (l : List (String × Bool)) (x : String × Bool)
    (id : String) (h : findSource l id = none) (hx : (x.1 == id) = false) :
    findSource (l ++ [x]) id = none := by
  simp only [findSource] at h ⊢
  rw [List.find?_append, h]
  show List.find? (fun p => p.1 == id) [x] = none
  simp [List.find?, hx]

/-- The Update pass only appends to the registry. -/
theorem updatePassGo_sources_mono (f : Toast → Bool) (prev : List SessionInfo) :
    ∀ (cur : List SessionInfo) (sources : List (String × Bool))
      (toasts : List Toast) (n : Nat),
      ∃ ext, (updatePassGo f prev cur sources toasts n).sources = sources ++ ext := by
  intro cur
  induction cur with
  | nil => intro sources toasts n; exact ⟨[], by simp [updatePassGo]⟩
  | cons s rest ih =>
    intro sources toasts n
    simp only [updatePassGo]
    split
    · exact ih sources toasts n
    · split
      · split
        · obtain ⟨ext, hext⟩ :=
            ih (sources ++ [(s.source_app_user_mode_id, true)])
              (toasts ++ [mkToast s]) (n + 1)
          exact ⟨(s.source_app_user_mode_id, true) :: ext, by
            rw [hext, List.append_assoc]; rfl⟩
        · exact ⟨[(s.source_app_user_mode_id, true)], rfl⟩
      · split
        · split
          · exact ih sources (toasts ++ [mkToast s]) n
          · exact ⟨[], by simp⟩
        · exact ih sources toasts n

/-- The Update pass only appends to the list of dispatched toasts. -/
theorem updatePassGo_toasts_mono (f : Toast → Bool) (prev : List SessionInfo) :
    ∀ (cur : List SessionInfo) (sources : List (String × Bool))
      (toasts : List Toast) (n : Nat),
      ∃ ext, (updatePassGo f prev cur sources toasts n).sentToasts = toasts ++ ext := by
  intro cur
  induction cur with
  | nil => intro sources toasts n; exact ⟨[], by simp [updatePassGo]⟩
  | cons s rest ih =>
    intro sources toasts n
    simp only [updatePassGo]
    split
    · exact ih sources toasts n
    · split
      · split
        · obtain ⟨ext, hext⟩ :=
            ih (sources ++ [(s.source_app_user_mode_id, true)])
              (toasts ++ [mkToast s]) (n + 1)
          exact ⟨mkToast s :: ext, by rw [hext, List.append_assoc]; rfl⟩
        · exact ⟨[], by simp⟩
      · split
        · split
          · obtain ⟨ext, hext⟩ := ih sources (toasts ++ [mkToast s]) n
            exact ⟨mkToast s :: ext, by rw [hext, List.append_assoc]; rfl⟩
          · exact ⟨[], by simp⟩
        · exact ih sources toasts n

/-- The ConfigChanged counter of the Update pass never decreases. -/
theorem updatePassGo_cfg_mono (f : Toast → Bool) (prev : List SessionInfo) :
    ∀ (cur : List SessionInfo) (sources : List (String × Bool))
      (toasts : List Toast) (n : Nat),
      n ≤ (updatePassGo f prev cur sources toasts n).configChangedCount := by
  intro cur
  induction cur with
  | nil => intro sources toasts n; simp [updatePassGo]
  | cons s rest ih =>
    intro sources toasts n
    simp only [updatePassGo]
    split
    · exact ih sources toasts n
    · split
      · split
        · exact le_trans (Nat.le_succ n)
            (ih (sources ++ [(s.source_app_user_mode_id, true)])
              (toasts ++ [mkToast s]) (n + 1))
        · exact Nat.le_succ n
      · split
        · split
          · exact ih sources (toasts ++ [mkToast s]) n
          · exact le_refl n
        · exact ih sources toasts n

/-- While the registry lists a source id as disabled, the Update pass never
dispatches a toast carrying that id. -/
theorem updatePassGo_disabled (f : Toast → Bool) (prev : List SessionInfo)
    (id : String) (q : String × Bool) (hq : q.2 = false) :
    ∀ (cur : List SessionInfo) (sources : List (String × Bool))
      (toasts : List Toast) (n : Nat),
      findSource sources id = some q →
      (∀ t ∈ toasts, t.source_app_user_mode_id ≠ id) →
      ∀ t ∈ (updatePassGo f prev cur sources toasts n).sentToasts,
        t.source_app_user_mode_id ≠ id := by
  intro cur
  induction cur with
  | nil =>
    intro sources toasts n hfind hts
    simpa [updatePassGo] using hts
  | cons s rest ih =>
    intro sources toasts n hfind hts
    simp only [updatePassGo]
    split
    · exact ih sources toasts n hfind hts
    · split
      · rename_i heq
        have hsne : s.source_app_user_mode_id ≠ id := by
          intro hcon
          rw [hcon, hfind] at heq
          exact Option.noConfusion heq
        have hts2 : ∀ t ∈ toasts ++ [mkToast s], t.source_app_user_mode_id ≠ id := by
          intro t ht
          rcases List.mem_append.mp ht with hold | hnew
          · exact hts t hold
          · rw [List.mem_singleton.mp hnew]
            exact hsne
        split
        · exact ih (sources ++ [(s.source_app_user_mode_id, true)])
            (toasts ++ [mkToast s]) (n + 1)
            (findSource_append_left sources _ id q hfind) hts2
        · simpa using hts
      · rename_i p heq
        split
        · rename_i hp
          have hsne : s.source_app_user_mode_id ≠ id := by
            intro hcon
            rw [hcon, hfind] at heq
            have hqp : q = p := Option.some.inj heq
            rw [← hqp, hq] at hp
            exact Bool.noConfusion hp
          have hts2 : ∀ t ∈ toasts ++ [mkToast s], t.source_app_user_mode_id ≠ id := by
            intro t ht
            rcases List.mem_append.mp ht with hold | hnew
            · exact hts t hold
            · rw [List.mem_singleton.mp hnew]
              exact hsne
          split
          · exact ih sources (toasts ++ [mkToast s]) n hfind hts2
          · simpa using hts
        · exact ih sources toasts n hfind hts

/-- C2: once a source id is disabled in the registry, no snapshot carrying it
produces a notification in an Update pass, whatever the other fields; and when
the pass completes, the whole current list including the filtered snapshots
replaces the previous-observation memory, so nothing of it is re-detected as
new afterwards. -/
theorem claim_C2 (f : Toast → Bool) (sources : List (String × Bool))
    (prev cur : List SessionInfo) (id : String) (q : String × Bool)
    (hfind : findSource sources id = some q) (hdis : q.2 = false) :
    (∀ t ∈ (runUpdatePass f sources prev cur).sentToasts,
        t.source_app_user_mode_id ≠ id)
      ∧ ((runUpdatePass f sources prev cur).ok = true →
          (runUpdatePass f sources prev cur).prev = cur
            ∧ detect_new cur (runUpdatePass f sources prev cur).prev = []) := by
  constructor
  · intro t ht
    exact updatePassGo_disabled f prev id q hdis cur sources [] 0 hfind
      (fun t2 ht2 => absurd ht2 (List.not_mem_nil t2)) t ht
  · intro hok
    have hok2 : (updatePassGo f prev cur sources [] 0).ok = true := hok
    have hprev : (runUpdatePass f sources prev cur).prev = cur := by
      show (if (updatePassGo f prev cur sources [] 0).ok then cur else prev) = cur
      rw [if_pos hok2]
    exact ⟨hprev, by rw [hprev]; exact detect_new_self cur⟩

/-- C2 witness: with the only source disabled, a pass over one fresh snapshot
dispatches nothing and still records the snapshot as seen. -/
theorem claim_C2_witness :
    (∀ t ∈ (runUpdatePass (fun _ => true) [("a.one", false)] [] [sample1]).sentToasts,
        t.source_app_user_mode_id ≠ "a.one")
      ∧ ((runUpdatePass (fun _ => true) [("a.one", false)] [] [sample1]).ok = true →
          (runUpdatePass (fun _ => true) [("a.one", false)] [] [sample1]).prev = [sample1]
            ∧ detect_new [sample1]
                (runUpdatePass (fun _ => true) [("a.one", false)] [] [sample1]).prev = []) :=
  claim_C2 (fun _ => true) [("a.one", false)] [] [sample1] "a.one" ("a.one", false)
    (by decide) rfl

/-- C6: change detection returns exactly the subset of the current list, in
order, whose identity has no match in the previous list, where identity is the
five-field comparison that excludes the thumbnail; in particular snapshots
differing only in thumbnail compare equal and detection of a list against
itself is empty. -/
theorem claim_C6 (current previous : List SessionInfo) :
    (detect_new current previous).Sublist current
      ∧ (∀ s, s ∈ detect_new current previous ↔
          s ∈ current ∧ ∀ p ∈ previous, ¬ specSameIdentity p s)
      ∧ (∀ a b, SessionInfo.eq a b = true ↔ specSameIdentity a b)
      ∧ (∀ (s : SessionInfo) (th : Option Thumbnail),
          SessionInfo.eq s { s with thumbnail := th } = true)
      ∧ detect_new current current = [] := by
  refine ⟨List.filter_sublist current, ?_, SessionInfo.eq_iff, ?_, detect_new_self current⟩
  · intro s
    simp [detect_new, List.mem_filter, List.any_eq_false, SessionInfo.eq_iff]
  · intro s th
    simp [SessionInfo.eq]

/-- When every toast dispatch succeeds, an Update pass that sees a fresh
snapshot of a source id unknown to the registry registers that id enabled,
sends at least one ConfigChanged event, and dispatches a toast carrying that
id. -/
theorem updatePassGo_new (f : Toast → Bool) (prev : List SessionInfo)
    (id : String) (hf : ∀ t, f t = true) :
    ∀ (cur : List SessionInfo) (sources : List (String × Bool))
      (toasts : List Toast) (n : Nat) (s : SessionInfo),
      s ∈ cur → s.source_app_user_mode_id = id →
      prev.any (fun p => SessionInfo.eq p s) = false →
      findSource sources id = none →
      ((id, true) ∈ (updatePassGo f prev cur sources toasts n).sources
        ∧ n < (updatePassGo f prev cur sources toasts n).configChangedCount
        ∧ ∃ t ∈ (updatePassGo f prev cur sources toasts n).sentToasts,
            t.source_app_user_mode_id = id) := by
  intro cur
  induction cur with
  | nil =>
    intro sources toasts n s hmem
    exact absurd hmem (List.not_mem_nil s)
  | cons s0 rest ih =>
    intro sources toasts n s hmem hid hnew hfind
    rcases List.mem_cons.mp hmem with heq | hmem2
    · subst heq
      have hstep : updatePassGo f prev (s :: rest) sources toasts n
          = updatePassGo f prev rest (sources ++ [(id, true)])
              (toasts ++ [mkToast s]) (n + 1) := by
        simp [updatePassGo, hnew, hid, hfind, hf]
      rw [hstep]
      obtain ⟨ext1, hext1⟩ := updatePassGo_sources_mono f prev rest
        (sources ++ [(id, true)]) (toasts ++ [mkToast s]) (n + 1)
      obtain ⟨ext2, hext2⟩ := updatePassGo_toasts_mono f prev rest
        (sources ++ [(id, true)]) (toasts ++ [mkToast s]) (n + 1)
      have hcfg := updatePassGo_cfg_mono f prev rest
        (sources ++ [(id, true)]) (toasts ++ [mkToast s]) (n + 1)
      refine ⟨?_, ?_, ⟨mkToast s, ?_, ?_⟩⟩
      · rw [hext1]; simp
      · exact Nat.lt_of_lt_of_le (Nat.lt_succ_self n) hcfg
      · rw [hext2]; simp
      · simpa [mkToast] using hid
    · cases h0 : (prev.any fun p => SessionInfo.eq p s0) with
      | true =>
        have hstep : updatePassGo f prev (s0 :: rest) sources toasts n
            = updatePassGo f prev rest sources toasts n := by
          simp [updatePassGo, h0]
        rw [hstep]
        exact ih sources toasts n s hmem2 hid hnew hfind
      | false =>
        cases hfs : findSource sources s0.source_app_user_mode_id with
        | none =>
          by_cases hs0 : s0.source_app_user_mode_id = id
          · have hstep : updatePassGo f prev (s0 :: rest) sources toasts n
                = updatePassGo f prev rest (sources ++ [(id, true)])
                    (toasts ++ [mkToast s0]) (n + 1) := by
              simp [updatePassGo, h0, hfs, hf, hs0, hfind]
            rw [hstep]
            obtain ⟨ext1, hext1⟩ := updatePassGo_sources_mono f prev rest
              (sources ++ [(id, true)]) (toasts ++ [mkToast s0]) (n + 1)
            obtain ⟨ext2, hext2⟩ := updatePassGo_toasts_mono f prev rest
              (sources ++ [(id, true)]) (toasts ++ [mkToast s0]) (n + 1)
            have hcfg := updatePassGo_cfg_mono f prev rest
              (sources ++ [(id, true)]) (toasts ++ [mkToast s0]) (n + 1)
            refine ⟨?_, ?_, ⟨mkToast s0, ?_, ?_⟩⟩
            · rw [hext1]; simp
            · exact Nat.lt_of_lt_of_le (Nat.lt_succ_self n) hcfg
            · rw [hext2]; simp
            · simpa [mkToast] using hs0
          · have hbeq : (s0.source_app_user_mode_id == id) = false :=
              beq_eq_false_iff_ne.mpr hs0
            have hfind2 : findSource
                (sources ++ [(s0.source_app_user_mode_id, true)]) id = none :=
              findSource_append_none sources _ id hfind hbeq
            have hstep : updatePassGo f prev (s0 :: rest) sources toasts n
                = updatePassGo f prev rest
                    (sources ++ [(s0.source_app_user_mode_id, true)])
                    (toasts ++ [mkToast s0]) (n + 1) := by
              simp [updatePassGo, h0, hfs, hf]
            rw [hstep]
            have h := ih (sources ++ [(s0.source_app_user_mode_id, true)])
              (toasts ++ [mkToast s0]) (n + 1) s hmem2 hid hnew hfind2
            exact ⟨h.1, Nat.lt_of_succ_lt h.2.1, h.2.2⟩
        | some p =>
          cases hp : p.2 with
          | true =>
            have hstep : updatePassGo f prev (s0 :: rest) sources toasts n
                = updatePassGo f prev rest sources (toasts ++ [mkToast s0]) n := by
              simp [updatePassGo, h0, hfs, hp, hf]
            rw [hstep]
            exact ih sources (toasts ++ [mkToast s0]) n s hmem2 hid hnew hfind
          | false =>
            have hstep : updatePassGo f prev (s0 :: rest) sources toasts n
                = updatePassGo f prev rest sources toasts n := by
              simp [updatePassGo, h0, hfs, hp]
            rw [hstep]
            exact ih sources toasts n s hmem2 hid hnew hfind

/-- C3: an Update pass that detects a snapshot whose source id is not in the
registry inserts the entry enabled, sends a ConfigChanged event, and, with the
toast dispatch succeeding, notifies that source on the same pass. -/
theorem claim_C3 (f : Toast → Bool) (sources : List (String × Bool))
    (prev cur : List SessionInfo) (s : SessionInfo)
    (hf : ∀ t, f t = true) (hs : s ∈ cur)
    (hnew : prev.any (fun p => SessionInfo.eq p s) = false)
    (hunk : findSource sources s.source_app_user_mode_id = none) :
    (s.source_app_user_mode_id, true) ∈ (runUpdatePass f sources prev cur).sources
      ∧ 1 ≤ (runUpdatePass f sources prev cur).configChangedCount
      ∧ ∃ t ∈ (runUpdatePass f sources prev cur).sentToasts,
          t.source_app_user_mode_id = s.source_app_user_mode_id := by
  have h := updatePassGo_new f prev s.source_app_user_mode_id hf cur sources [] 0
    s hs rfl hnew hunk
  exact ⟨h.1, h.2.1, h.2.2⟩

/-- C3 witness: a fresh snapshot of an unknown source on an empty registry. -/
theorem claim_C3_witness :
    ("a.one", true) ∈ (runUpdatePass (fun _ => true) [] [] [sample1]).sources
      ∧ 1 ≤ (runUpdatePass (fun _ => true) [] [] [sample1]).configChangedCount
      ∧ ∃ t ∈ (runUpdatePass (fun _ => true) [] [] [sample1]).sentToasts,
          t.source_app_user_mode_id = "a.one" :=
  claim_C3 (fun _ => true) [] [] [sample1] sample1 (fun _ => rfl)
    (List.mem_singleton.mpr rfl) rfl rfl

/-- C4: after the Clear-known command empties the registry, a source that was
known and disabled and whose snapshot shows up as newly detected on the next
Update pass is treated as brand-new: re-registered enabled and notified
again when the dispatch succeeds. -/
theorem claim_C4 (f : Toast → Bool) (sources : List (String × Bool))
    (prev cur : List SessionInfo) (s : SessionInfo)
    (hf : ∀ t, f t = true)
    (_hknown : (s.source_app_user_mode_id, false) ∈ sources)
    (hs : s ∈ cur)
    (hnew : prev.any (fun p => SessionInfo.eq p s) = false) :
    (s.source_app_user_mode_id, true)
        ∈ (runUpdatePass f (wndproc_command sources TrayCommand.clearKnown).1
            prev cur).sources
      ∧ ∃ t ∈ (runUpdatePass f (wndproc_command sources TrayCommand.clearKnown).1
            prev cur).sentToasts,
          t.source_app_user_mode_id = s.source_app_user_mode_id := by
  have h := updatePassGo_new f prev s.source_app_user_mode_id hf cur [] [] 0
    s hs rfl hnew rfl
  exact ⟨h.1, h.2.2⟩

/-- C4 witness: the one known source is disabled, Clear known runs, and its
snapshot is then detected afresh. -/
theorem claim_C4_witness :
    ("a.one", true)
        ∈ (runUpdatePass (fun _ => true)
            (wndproc_command [("a.one", false)] TrayCommand.clearKnown).1
            [] [sample1]).sources
      ∧ ∃ t ∈ (runUpdatePass (fun _ => true)
            (wndproc_command [("a.one", false)] TrayCommand.clearKnown).1
            [] [sample1]).sentToasts,
          t.source_app_user_mode_id = "a.one" :=
  claim_C4 (fun _ => true) [("a.one", false)] [] [sample1] sample1 (fun _ => rfl)
    (List.mem_singleton.mpr rfl) (List.mem_singleton.mpr rfl) rfl

/-- When every attempt within the budget fails, the retry loop returns nothing
and has slept 50 ms per failed attempt. -/
theorem retryLoop_fail (session : Nat → Option SessionInfo) :
    ∀ (n i slept : Nat), (∀ k, k < n → session (i + k) = none) →
      retryLoop session n i slept = (none, slept + n * 50000000) := by
  intro n
  induction n with
  | zero => intro i slept h; simp [retryLoop]
  | succ m ih =>
    intro i slept h
    have h0 : session i = none := by
      have := h 0 (Nat.succ_pos m)
      simpa using this
    have h2 : ∀ k, k < m → session (i + 1 + k) = none := by
      intro k hk
      have := h (k + 1) (Nat.succ_lt_succ hk)
      rwa [show i + (k + 1) = i + 1 + k by omega] at this
    simp only [retryLoop, h0]
    rw [ih (i + 1) (slept + 50000000) h2, Prod.mk.injEq]
    exact ⟨rfl, by omega⟩

/-- C8: a session whose metadata read fails on all of the 20 attempts, each
followed by the fixed 50 ms backoff, is omitted from the enumerated list while
the pass still succeeds and returns the snapshots of the other sessions. -/
theorem claim_C8 (session : Nat → Option SessionInfo)
    (pre post : List (Nat → Option SessionInfo))
    (hfail : ∀ i, i < 20 → session i = none) :
    get_session_info_with_retry session = (none, 20 * 50000000)
      ∧ get_session_infos (pre ++ session :: post)
          = get_session_infos pre ++ get_session_infos post := by
  have h1 : get_session_info_with_retry session = (none, 20 * 50000000) := by
    have h := retryLoop_fail session 20 0 0 (fun k hk => by simpa using hfail k hk)
    simpa [get_session_info_with_retry] using h
  refine ⟨h1, ?_⟩
  simp only [get_session_infos, List.filterMap_append]
  congr 1
  exact List.filterMap_cons_none (by rw [h1])

/-- C8 witness: one always-failing session between no other sessions on the
left and one immediately succeeding session on the right. -/
theorem claim_C8_witness :
    get_session_info_with_retry (fun _ => none) = (none, 20 * 50000000)
      ∧ get_session_infos ([] ++ (fun _ => none) :: [fun _ => some sample1])
          = get_session_infos [] ++ get_session_infos [fun _ => some sample1] :=
  claim_C8 (fun _ => none) [] [fun _ => some sample1] (fun _ _ => rfl)

/-- C1 counterexample: with a registry of two enabled sources and two fresh
snapshots, a send_toast failure on the first snapshot makes the whole loop
return the error: no toast at all is dispatched, although the second toast
would have succeeded (the dispatch function fails only on source a.one), and
prev_session_infos is never replaced.  This contradicts the claim that the
loop keeps running and processes the remaining snapshots of the pass. -/
theorem claim_C1_counterexample :
    (runLoop (fun t => !(t.source_app_user_mode_id == "a.one")) (fun _ => true)
        [Event.update [sample1, sample2]] [("a.one", true), ("a.two", true)]
        [] [] 0).ok = false
      ∧ (runLoop (fun t => !(t.source_app_user_mode_id == "a.one")) (fun _ => true)
          [Event.update [sample1, sample2]] [("a.one", true), ("a.two", true)]
          [] [] 0).sent = []
      ∧ (runLoop (fun t => !(t.source_app_user_mode_id == "a.one")) (fun _ => true)
          [Event.update [sample1, sample2]] [("a.one", true), ("a.two", true)]
          [] [] 0).prev = [] := by
  decide

/-- C1 amended: when send_toast fails during an Update pass, the question-mark
operator propagates the error out of command_run_notifer: the event loop ends
with the error, the remaining queued events stay unprocessed,
prev_session_infos keeps its old value, and only the toasts dispatched before
the failure were sent. -/
theorem claim_C1_amended (f : Toast → Bool) (w : List (String × Bool) → Bool)
    (cur : List SessionInfo) (rest : List Event) (sources : List (String × Bool))
    (prev : List SessionInfo) (sent : List Toast) (n : Nat)
    (hfail : (runUpdatePass f sources prev cur).ok = false) :
    runLoop f w (Event.update cur :: rest) sources prev sent n
      = ⟨false, (runUpdatePass f sources prev cur).sources, prev,
          sent ++ (runUpdatePass f sources prev cur).sentToasts, n, rest⟩ := by
  simp [runLoop, hfail]

/-- C1 witness: a failing dispatch on a single fresh snapshot ends the loop
with a ConfigChanged event still queued. -/
theorem claim_C1_witness :
    runLoop (fun t => !(t.source_app_user_mode_id == "a.one")) (fun _ => true)
        (Event.update [sample1] :: [Event.configChanged]) [("a.one", true)] [] [] 0
      = ⟨false,
          (runUpdatePass (fun t => !(t.source_app_user_mode_id == "a.one"))
            [("a.one", true)] [] [sample1]).sources,
          [],
          [] ++ (runUpdatePass (fun t => !(t.source_app_user_mode_id == "a.one"))
            [("a.one", true)] [] [sample1]).sentToasts,
          0, [Event.configChanged]⟩ :=
  claim_C1_amended (fun t => !(t.source_app_user_mode_id == "a.one")) (fun _ => true)
    [sample1] [Event.configChanged] [("a.one", true)] [] [] 0 (by decide)

/-- C5 counterexample: with a config write that fails, processing a
ConfigChanged event ends the loop with the error: zero writes happened and the
second queued ConfigChanged event is never attempted, contradicting the claim
that the loop keeps running and the next ConfigChanged retries. -/
theorem claim_C5_counterexample :
    runLoop (fun _ => true) (fun _ => false)
        [Event.configChanged, Event.configChanged] [("a.one", true)] [] [] 0
      = ⟨false, [("a.one", true)], [], [], 0, [Event.configChanged]⟩ := by
  decide

/-- C5 amended: when the config write fails while handling ConfigChanged, the
question-mark operator propagates the error out of command_run_notifer: the
event loop terminates and the remaining queued events, including any later
ConfigChanged, are not processed, so no retry occurs. -/
theorem claim_C5_amended (f : Toast → Bool) (w : List (String × Bool) → Bool)
    (rest : List Event) (sources : List (String × Bool)) (prev : List SessionInfo)
    (sent : List Toast) (n : Nat) (hw : w sources = false) :
    runLoop f w (Event.configChanged :: rest) sources prev sent n
      = ⟨false, sources, prev, sent, n, rest⟩ := by
  simp [runLoop, hw]

/-- C5 witness: a failing write on an empty registry with an empty remaining
queue. -/
theorem claim_C5_witness :
    runLoop (fun _ => true) (fun _ => false) (Event.configChanged :: []) [] [sample1] [] 3
      = ⟨false, [], [sample1], [], 3, []⟩ :=
  claim_C5_amended (fun _ => true) (fun _ => false) [] [] [sample1] [] 3 rfl

end NowPlaying
